import Mathlib

/-!
Verification development for the PlayNite verification scripts
(`jules-scratch/verification/verify_page_load.py` and
`jules-scratch/verification/verify_age_verification.py`).

Each script's `run(playwright)` function is a straight-line sequence of
Playwright driver calls: launch a browser, open a page, navigate, perform a
fixed list of interaction/assertion steps, take a screenshot, and close the
browser.  There is no exception handling inside `run`: a failing step raises,
aborting the remaining statements (including the final `browser.close()`).

We embed this shape as a step-list interpreter `run` over a `Driver` model.
The interpreter's control flow (strict sequential order, abort at the first
failing step, `close` only reached on the all-success path, launch before any
step) is translated from the scripts.  The behaviour *inside* a single
Playwright call (how `get_by_role` matches, what `to_have_text` compares,
what `screenshot` writes) is third-party library behaviour not present in the
repository; those step semantics are modelled from the specification and are
marked `Modelled from the spec:` below.
-/

namespace PlayNite

/-- Accessible roles used by the scripts' `get_by_role` queries. -/
inductive Role
  | combobox
  | option
  | button
  deriving DecidableEq

/-- Name argument of a `get_by_role` query as written in the scripts: either
`re.compile(s, re.IGNORECASE)` or a plain string literal. -/
inductive NamePat
  | ciRegex (s : String)
  | plain (s : String)
  deriving DecidableEq

/-- Does the list `hay` start with the list `pat`? -/
def startsWithL : List Char → List Char → Bool
  | _, [] => true
  | [], _ :: _ => false
  | a :: as, b :: bs => a == b && startsWithL as bs

/-- Does `pat` occur contiguously somewhere in the second list? -/
def occursIn (pat : List Char) : List Char → Bool
  | [] => pat.isEmpty
  | a :: rest => startsWithL (a :: rest) pat || occursIn pat rest

/-- Lower-case a character sequence (ASCII case folding, as in
`Char.toLower`). -/
def lowerList (l : List Char) : List Char :=
  l.map Char.toLower

/-- Case-insensitive substring test: `pat` occurs in `hay` ignoring case. -/
def ciContains (hay pat : String) : Bool :=
  occursIn (lowerList pat.data) (lowerList hay.data)

/-- Modelled from the spec: name matching of the accessible-name query is a
"case-insensitive substring/pattern match on the accessible name".  Both the
`re.IGNORECASE` regex form and the plain-string form used by the scripts
match case-insensitively. -/
def NamePat.matchesName : NamePat → String → Bool
  | NamePat.ciRegex p, n => ciContains n p
  | NamePat.plain p, n => ciContains n p

/-- Drop leading whitespace characters. -/
def dropWSLeft : List Char → List Char
  | [] => []
  | c :: rest => if c.isWhitespace then dropWSLeft rest else c :: rest

/-- Trim whitespace from both ends of a character sequence. -/
def trimChars (l : List Char) : List Char :=
  (dropWSLeft (dropWSLeft l.reverse).reverse)

/-- Trim leading and trailing whitespace of a string (the normalization the
spec allows for text comparison). -/
def trimStr (s : String) : String :=
  String.mk (trimChars s.data)

/-- A UI control of the target page, exposing a role and an accessible name. -/
structure Control where
  role : Role
  accName : String
  deriving DecidableEq

/-- Modelled from the spec: the state of the target page as seen through the
driver boundary — its title, its accessible controls, and, per test id, the
visibility and visible text of the element carrying that `data-testid`. -/
structure Page where
  title : String
  controls : List Control
  visibleByTestId : String → Bool
  textByTestId : String → String

/-- Modelled from the spec: the external browser-automation driver.  `navOk`
tells whether navigation to a URL completes within the timeout, `writable`
whether a filesystem path is writable, and `image` is the image data a
screenshot of the current page produces. -/
structure Driver where
  page : Page
  navOk : String → Bool
  writable : String → Bool
  image : String

/-- The controls of `pg` matching an accessible-role-and-name query. -/
def candidates (pg : Page) (r : Role) (p : NamePat) : List Control :=
  pg.controls.filter (fun c => c.role == r && p.matchesName c.accName)

/-- Failure taxonomy of a single step (spec section 7). -/
inductive Failure
  | elementNotFound
  | ambiguousMatch
  | assertionFailed
  | navigationTimeout
  | ioError
  deriving DecidableEq

/-- Modelled from the spec: resolving an accessible-role-and-name query
"fails with `ElementNotFound` if no match appears within the timeout window,
or `AmbiguousMatch` if multiple controls match and the query did not
disambiguate"; a unique match resolves successfully.  (`candidates` stands
for the controls present within the timeout window.) -/
def locate (pg : Page) (r : Role) (p : NamePat) : Option Failure :=
  match candidates pg r p with
  | [] => some Failure.elementNotFound
  | [_] => none
  | _ :: _ :: _ => some Failure.ambiguousMatch

/-- One step of a scenario, the tagged variants the two scripts use. -/
inductive Step
  | goto (url : String)
  | clickRole (role : Role) (name : NamePat)
  | expectTitle (pat : NamePat)
  | expectVisible (testId : String)
  | expectText (testId : String) (expected : String)
  | screenshot (path : String)
  deriving DecidableEq

/-- Modelled from the spec: whether a single step fails, and how.  `goto`
fails with `NavigationTimeout` when the page does not load in time; role
queries fail per `locate`; `expectTitle` fails with `AssertionFailed` when
the title does not match the pattern; `expectVisible` when the element is not
visible; `expectText` when "the visible text does not equal the expected
string exactly (no normalization beyond whitespace trimming)"; `screenshot`
fails with `IOError` exactly when the path is not writable. -/
def execStep (d : Driver) : Step → Option Failure
  | Step.goto url => if d.navOk url then none else some Failure.navigationTimeout
  | Step.clickRole r p => locate d.page r p
  | Step.expectTitle p =>
      if NamePat.matchesName p d.page.title then none else some Failure.assertionFailed
  | Step.expectVisible tid =>
      if d.page.visibleByTestId tid then none else some Failure.assertionFailed
  | Step.expectText tid s =>
      if trimStr (d.page.textByTestId tid) = trimStr s then none
      else some Failure.assertionFailed
  | Step.screenshot p => if d.writable p then none else some Failure.ioError

/-- Modelled from the spec: the filesystem — files as a path/contents
association list and the set of directories that exist. -/
structure FS where
  files : List (String × String)
  dirs : List String
  deriving DecidableEq

/-- Write `v` at path `p`, overwriting any existing file at `p`. -/
def setFile (files : List (String × String)) (p v : String) : List (String × String) :=
  (p, v) :: files.filter (fun kv => kv.1 != p)

/-- Split a character sequence at slashes; `acc` holds the current segment
reversed. -/
def splitSlash (acc : List Char) : List Char → List (List Char)
  | [] => [acc.reverse]
  | c :: rest => if c == Char.ofNat 47 then acc.reverse :: splitSlash [] rest else splitSlash (c :: acc) rest

/-- Join path segments with slashes. -/
def joinSlash : List String → String
  | [] => ""
  | [x] => x
  | x :: y :: rest => x ++ "/" ++ joinSlash (y :: rest)

/-- The proper ancestor directories of a slash-separated path. -/
def parentDirs (p : String) : List String :=
  let parts := (splitSlash [] p.data).map String.mk
  (List.range (parts.length - 1)).map (fun i => joinSlash (parts.take (i + 1)))

/-- Modelled from the spec: a captured screenshot is a non-empty image file —
the PNG signature bytes followed by the driver's image data. -/
def capturedImage (d : Driver) : String :=
  "PNG" ++ d.image

/-- Modelled from the spec: the filesystem effect of a successful step.  A
screenshot is "written to a caller-specified relative path; must create
parent directories if absent; overwrites existing files at that path".
All other steps leave the filesystem unchanged. -/
def applyStep (d : Driver) (fs : FS) : Step → FS
  | Step.screenshot p =>
      if d.writable p then
        { files := setFile fs.files p (capturedImage d), dirs := fs.dirs ++ parentDirs p }
      else fs
  | _ => fs

/-- Observable side effects of `run`, in order: launching the browser,
opening the page, completing a step, closing the browser. -/
inductive Effect
  | launch
  | newPage
  | stepDone (s : Step)
  | close
  deriving DecidableEq

/-- How the Python `run` function terminates: it either returns normally or
an exception raised by a failing step propagates out of it uncaught. -/
inductive Outcome
  | returned
  | raised (f : Failure)
  deriving DecidableEq

/-- Scenario status in the spec's vocabulary. -/
inductive Status
  | passed
  | failed
  deriving DecidableEq

/-- A run that completes normally is Passed; a run aborted by a raised step
failure is Failed. -/
def statusOf : Outcome → Status
  | Outcome.returned => Status.passed
  | Outcome.raised _ => Status.failed

/-- Result of executing a list of steps: the effects performed, the final
filesystem, and, if a step failed, its index and failure. -/
structure StepsOut where
  trace : List Effect
  fs : FS
  failed : Option (Nat × Failure)
  deriving DecidableEq

/-- Sequential execution of the scripts' step statements: steps run in
declared order; the first failing step raises, so nothing after it runs and
its own effect is not performed. -/
def runSteps (d : Driver) : FS → List Step → StepsOut
  | fs, [] => { trace := [], fs := fs, failed := none }
  | fs, s :: rest =>
    match execStep d s with
    | some f => { trace := [], fs := fs, failed := some (0, f) }
    | none =>
      let out := runSteps d (applyStep d fs s) rest
      { trace := Effect.stepDone s :: out.trace
        fs := out.fs
        failed := Option.map (fun kf => (kf.1 + 1, kf.2)) out.failed }

/-- Result of one invocation of the scripts' `run` function. -/
structure RunOut where
  trace : List Effect
  fs : FS
  outcome : Outcome
  deriving DecidableEq

/-- The `run(playwright)` function of both scripts: launch the browser, open
a page, execute the steps in order, and — only if no step raised — execute
the final `browser.close()` and return.  There is no try/finally: when a step
raises, `close` is never reached and the exception propagates out of `run`. -/
def run (d : Driver) (fs : FS) (steps : List Step) : RunOut :=
  let out := runSteps d fs steps
  match out.failed with
  | none =>
      { trace := Effect.launch :: Effect.newPage :: (out.trace ++ [Effect.close])
        fs := out.fs
        outcome := Outcome.returned }
  | some kf =>
      { trace := Effect.launch :: Effect.newPage :: out.trace
        fs := out.fs
        outcome := Outcome.raised kf.2 }

/-- URL hard-coded at `verify_page_load.py` line 7. -/
def pageLoadUrl : String := "http://localhost:9002"

/-- Screenshot path hard-coded at `verify_page_load.py` line 13. -/
def pageLoadShotPath : String := "jules-scratch/verification/verification.png"

/-- URL hard-coded at `verify_age_verification.py` line 7. -/
def ageUrl : String := "http://localhost:9002"

/-- Screenshot path hard-coded at `verify_age_verification.py` line 28. -/
def ageShotPath : String := "jules-scratch/verification/verification.png"

/-- The steps of `verify_page_load.py`'s `run` (scenario A): navigate, assert
the title matches `re.compile("PlayNite", re.IGNORECASE)`, screenshot. -/
def pageLoadSteps : List Step :=
  [Step.goto pageLoadUrl,
   Step.expectTitle (NamePat.ciRegex "PlayNite"),
   Step.screenshot pageLoadShotPath]

/-- The steps of `verify_age_verification.py`'s `run` (scenario B): navigate;
open each of the month/day/year comboboxes and click the options "February",
"30", "2000"; click the button named like "enter"; assert the
`data-testid="form-error"` element is visible with the exact error text;
screenshot. -/
def ageVerificationSteps : List Step :=
  [Step.goto ageUrl,
   Step.clickRole Role.combobox (NamePat.ciRegex "month"),
   Step.clickRole Role.option (NamePat.plain "February"),
   Step.clickRole Role.combobox (NamePat.ciRegex "day"),
   Step.clickRole Role.option (NamePat.plain "30"),
   Step.clickRole Role.combobox (NamePat.ciRegex "year"),
   Step.clickRole Role.option (NamePat.plain "2000"),
   Step.clickRole Role.button (NamePat.ciRegex "enter"),
   Step.expectVisible "form-error",
   Step.expectText "form-error" "Please enter a valid date.",
   Step.screenshot ageShotPath]

/-- The empty filesystem. -/
def emptyFS : FS := { files := [], dirs := [] }

/-- A target page satisfying the spec's "target application contract": three
comboboxes named Month/Day/Year, options February/30/2000, an Enter button, a
visible form-error element with the exact error text, and a PlayNite title. -/
def appPage : Page :=
  { title := "PlayNite - Watch Anime"
    controls :=
      [{ role := Role.combobox, accName := "Month" },
       { role := Role.combobox, accName := "Day" },
       { role := Role.combobox, accName := "Year" },
       { role := Role.option, accName := "February" },
       { role := Role.option, accName := "30" },
       { role := Role.option, accName := "2000" },
       { role := Role.button, accName := "Enter" }]
    visibleByTestId := fun tid => tid == "form-error"
    textByTestId := fun tid => if tid == "form-error" then "Please enter a valid date." else "" }

/-- A well-behaved driver over `appPage`: navigation succeeds, every path is
writable. -/
def dApp : Driver :=
  { page := appPage, navOk := fun _ => true, writable := fun _ => true, image := "img-b" }

/-- A second well-behaved driver over the same page, producing a different
screenshot image. -/
def dApp2 : Driver :=
  { page := appPage, navOk := fun _ => true, writable := fun _ => true, image := "img-a" }

/-- A driver whose page shows the wrong error text, so that the exact-text
assertion (step index 9 of scenario B) fails. -/
def dBad : Driver :=
  { page :=
      { appPage with
        textByTestId := fun tid => if tid == "form-error" then "Invalid date" else "" }
    navOk := fun _ => true
    writable := fun _ => true
    image := "img-bad" }

/-- A filesystem already holding an (old) file at the screenshot path. -/
def fsPre : FS :=
  { files := [("jules-scratch/verification/verification.png", "old")], dirs := [] }

/-- Spec section 6 "Target application contract" for scenario B, modelled
from the spec: navigation to the URL completes; each role-and-name query of
the scenario resolves to exactly one control; the form-error element is
visible and carries the exact error text; the screenshot path is writable. -/
abbrev ContractB (d : Driver) : Prop :=
  d.navOk ageUrl = true ∧
  locate d.page Role.combobox (NamePat.ciRegex "month") = none ∧
  locate d.page Role.option (NamePat.plain "February") = none ∧
  locate d.page Role.combobox (NamePat.ciRegex "day") = none ∧
  locate d.page Role.option (NamePat.plain "30") = none ∧
  locate d.page Role.combobox (NamePat.ciRegex "year") = none ∧
  locate d.page Role.option (NamePat.plain "2000") = none ∧
  locate d.page Role.button (NamePat.ciRegex "enter") = none ∧
  d.page.visibleByTestId "form-error" = true ∧
  d.page.textByTestId "form-error" = "Please enter a valid date." ∧
  d.writable ageShotPath = true

/-- Spec section 6 "Target application contract" for scenario A, modelled
from the spec: navigation completes, the page title contains "PlayNite"
case-insensitively, and the screenshot path is writable. -/
abbrev ContractA (d : Driver) : Prop :=
  d.navOk pageLoadUrl = true ∧
  NamePat.matchesName (NamePat.ciRegex "PlayNite") d.page.title = true ∧
  d.writable pageLoadShotPath = true

/-- Every effect recorded by the step loop is the completion of some step:
the loop itself never launches or closes the browser. -/
theorem runSteps_trace_shape (d : Driver) :
    ∀ (steps : List Step) (fs : FS), ∀ e ∈ (runSteps d fs steps).trace, ∃ s, e = Effect.stepDone s := by
  intro steps
  induction steps with
  | nil => intro fs e he; simp [runSteps] at he
  | cons s rest ih =>
    intro fs e he
    cases hx : execStep d s with
    | some f => simp [runSteps, hx] at he
    | none =>
      simp only [runSteps, hx] at he
      rcases List.mem_cons.mp he with h | h
      · exact ⟨s, h⟩
      · exact ih (applyStep d fs s) e h

/-- Claim C1: steps execute strictly in declared order and execution stops at
the first failing step.  On an all-success run the trace is exactly the
declared step list in order; if step `k` fails, the trace is exactly the
first `k` steps in declared order — no step after `k` (including a Screenshot
step declared after a failing assertion) ever executes — and the failure is
the failure of step `k` itself. -/
theorem claim_C1 (d : Driver) (fs : FS) (steps : List Step) :
    ((runSteps d fs steps).failed = none →
      (runSteps d fs steps).trace = steps.map Effect.stepDone) ∧
    (∀ k f, (runSteps d fs steps).failed = some (k, f) →
      (runSteps d fs steps).trace = (steps.take k).map Effect.stepDone ∧
      k < steps.length ∧ ∃ s, steps[k]? = some s ∧ execStep d s = some f) := by
  induction steps generalizing fs with
  | nil => simp [runSteps]
  | cons s rest ih =>
    cases hx : execStep d s with
    | some f =>
      constructor
      · intro h; simp [runSteps, hx] at h
      · intro k f' h
        simp only [runSteps, hx, Option.some.injEq, Prod.mk.injEq] at h
        obtain ⟨hk, hf⟩ := h
        subst hk; subst hf
        refine ⟨by simp [runSteps, hx], by simp, s, by simp, hx⟩
    | none =>
      obtain ⟨ih1, ih2⟩ := ih (applyStep d fs s)
      cases ho : (runSteps d (applyStep d fs s) rest).failed with
      | none =>
        constructor
        · intro _
          simp [runSteps, hx, ho, ih1 ho]
        · intro k f h
          simp [runSteps, hx, ho] at h
      | some kf =>
        obtain ⟨k0, f0⟩ := kf
        obtain ⟨ht, hl, s0, hs0, hes0⟩ := ih2 k0 f0 ho
        constructor
        · intro h
          simp [runSteps, hx, ho] at h
        · intro k f h
          simp only [runSteps, hx, ho, Option.map_some', Option.some.injEq, Prod.mk.injEq] at h
          obtain ⟨hk, hf⟩ := h
          subst hk; subst hf
          refine ⟨?_, ?_, s0, ?_, hes0⟩
          · simp [runSteps, hx, ho, List.take_succ_cons, ht]
          · simpa using Nat.succ_lt_succ hl
          · simpa using hs0

/-- Claim C1 witness: in scenario B run against `dBad` the exact-text
assertion at step index 9 fails, so exactly the first nine steps execute —
in particular the Screenshot step declared after it never runs. -/
theorem claim_C1_witness :
    (runSteps dBad emptyFS ageVerificationSteps).trace =
      (ageVerificationSteps.take 9).map Effect.stepDone ∧
    9 < ageVerificationSteps.length :=
  ⟨((claim_C1 dBad emptyFS ageVerificationSteps).2 9 Failure.assertionFailed (by decide)).1,
   ((claim_C1 dBad emptyFS ageVerificationSteps).2 9 Failure.assertionFailed (by decide)).2.1⟩

/-- Claim C2 counterexample: the scripts have no try/finally, so when the
exact-text assertion of scenario B fails, `run` propagates the exception and
the final `browser.close()` statement never executes — the browsing context
is not closed on this exit path, contrary to the claim. -/
theorem claim_C2_cex :
    Effect.close ∉ (run dBad emptyFS ageVerificationSteps).trace ∧
    (run dBad emptyFS ageVerificationSteps).outcome = Outcome.raised Failure.assertionFailed := by
  decide

/-- Claim C2 (amended): the browsing context is closed before `run` returns
exactly on the success path — `close` appears in the trace if and only if the
run returned normally; on a step failure `run` raises without closing. -/
theorem claim_C2_amended (d : Driver) (fs : FS) (steps : List Step) :
    Effect.close ∈ (run d fs steps).trace ↔ (run d fs steps).outcome = Outcome.returned := by
  cases ho : (runSteps d fs steps).failed with
  | none => simp [run, ho]
  | some kf =>
    have hns : Effect.close ∉ (runSteps d fs steps).trace := by
      intro hmem
      obtain ⟨s, hs⟩ := runSteps_trace_shape d steps fs Effect.close hmem
      exact Effect.noConfusion hs
    simp [run, ho, hns]

/-- Claim C2 witness: on an all-success run of scenario A the browser is
closed before `run` returns. -/
theorem claim_C2_witness :
    Effect.close ∈ (run dApp emptyFS pageLoadSteps).trace :=
  (claim_C2_amended dApp emptyFS pageLoadSteps).mpr (by decide)

/-- Claim C3 counterexample: `run` does not always return normally — with
the wrong error text on the page, the exact-text assertion raises and the
exception propagates uncaught out of `run`. -/
theorem claim_C3_cex :
    (run dBad emptyFS ageVerificationSteps).outcome ≠ Outcome.returned := by
  decide

/-- Claim C3 (amended): `run` returns normally exactly when every step
succeeds; when step `k` fails with `f`, `run` raises exactly that failure —
the failure is surfaced (never silently swallowed), but as an uncaught
exception, not as a returned RunResult. -/
theorem claim_C3_amended (d : Driver) (fs : FS) (steps : List Step) :
    ((run d fs steps).outcome = Outcome.returned ↔ (runSteps d fs steps).failed = none) ∧
    (∀ k f, (runSteps d fs steps).failed = some (k, f) →
      (run d fs steps).outcome = Outcome.raised f) := by
  cases ho : (runSteps d fs steps).failed with
  | none =>
    constructor
    · simp [run, ho]
    · intro k f hkf; exact Option.noConfusion hkf
  | some kf =>
    obtain ⟨k0, f0⟩ := kf
    constructor
    · simp [run, ho]
    · intro k f hkf
      simp only [Option.some.injEq, Prod.mk.injEq] at hkf
      obtain ⟨hk, hf⟩ := hkf
      subst hf
      simp [run, ho]

/-- Claim C3 witness: scenario B against the wrong-text page fails at step
index 9 and `run` raises exactly that assertion failure. -/
theorem claim_C3_witness :
    (runSteps dBad emptyFS ageVerificationSteps).failed = some (9, Failure.assertionFailed) ∧
    (run dBad emptyFS ageVerificationSteps).outcome = Outcome.raised Failure.assertionFailed :=
  ⟨by decide, (claim_C3_amended dBad emptyFS ageVerificationSteps).2 9 Failure.assertionFailed (by decide)⟩

/-- Claim C4 counterexample: on an empty step list `run` does not fail fast
and does open a browsing context — it launches the browser, performs no
steps, closes it and returns normally; no configuration-error check exists
in the scripts. -/
theorem claim_C4_cex :
    (run dApp emptyFS []).outcome = Outcome.returned ∧
    Effect.launch ∈ (run dApp emptyFS []).trace := by
  decide

/-- Claim C4 (amended): for every driver and filesystem, running an empty
step list opens the browsing context, executes nothing, closes the context
and returns success; the runner has no empty-scenario configuration error. -/
theorem claim_C4_amended (d : Driver) (fs : FS) :
    run d fs [] =
      { trace := [Effect.launch, Effect.newPage, Effect.close], fs := fs, outcome := Outcome.returned } :=
  rfl

/-- Claim C4 witness: the amended statement at a concrete driver and the
empty filesystem. -/
theorem claim_C4_witness :
    run dApp emptyFS [] =
      { trace := [Effect.launch, Effect.newPage, Effect.close], fs := emptyFS, outcome := Outcome.returned } :=
  claim_C4_amended dApp emptyFS

/-- A captured screenshot image is never the empty file. -/
theorem capturedImage_ne_empty (d : Driver) : capturedImage d ≠ "" := by
  intro h
  have hd := congrArg String.data h
  simp only [capturedImage, String.data_append] at hd
  rcases List.append_eq_nil.mp hd with ⟨h1, _⟩
  exact absurd h1 (by decide)

/-- Claim C5: under the spec's target-application contract for scenario B —
each role-and-name query resolves uniquely, and on the invalid date
February 30, 2000 the form-error element is visible with the exact text
"Please enter a valid date." — the scripted run of scenario B completes with
status Passed. -/
theorem claim_C5 (d : Driver) (fs : FS) (h : ContractB d) :
    statusOf (run d fs ageVerificationSteps).outcome = Status.passed ∧
    d.page.visibleByTestId "form-error" = true ∧
    d.page.textByTestId "form-error" = "Please enter a valid date." := by
  obtain ⟨h1, h2, h3, h4, h5, h6, h7, h8, h9, h10, h11⟩ := h
  refine ⟨?_, h9, h10⟩
  simp [run, runSteps, ageVerificationSteps, execStep, applyStep, statusOf,
        h1, h2, h3, h4, h5, h6, h7, h8, h9, h10, h11]

/-- Claim C5 witness: a concrete driver satisfying the scenario B contract,
on which the run passes. -/
theorem claim_C5_witness :
    ContractB dApp ∧ statusOf (run dApp emptyFS ageVerificationSteps).outcome = Status.passed :=
  ⟨by decide, (claim_C5 dApp emptyFS (by decide)).1⟩

/-- Claim C6: under the spec's target-application contract for scenario A —
navigation completes, the title contains "PlayNite" case-insensitively, the
screenshot path is writable — the run of scenario A completes with status
Passed and afterwards the filesystem holds a non-empty file at the
screenshot path. -/
theorem claim_C6 (d : Driver) (fs : FS) (h : ContractA d) :
    statusOf (run d fs pageLoadSteps).outcome = Status.passed ∧
    List.lookup pageLoadShotPath (run d fs pageLoadSteps).fs.files = some (capturedImage d) ∧
    capturedImage d ≠ "" := by
  obtain ⟨h1, h2, h3⟩ := h
  refine ⟨?_, ?_, capturedImage_ne_empty d⟩
  · simp [run, runSteps, pageLoadSteps, execStep, applyStep, statusOf, h1, h2, h3]
  · simp [run, runSteps, pageLoadSteps, execStep, applyStep, setFile,
          List.lookup, beq_self_eq_true, h1, h2, h3]

/-- Claim C6 witness: a concrete driver whose page title contains "PlayNite",
on which scenario A passes and the screenshot file exists and is non-empty. -/
theorem claim_C6_witness :
    statusOf (run dApp emptyFS pageLoadSteps).outcome = Status.passed ∧
    List.lookup pageLoadShotPath (run dApp emptyFS pageLoadSteps).fs.files =
      some (capturedImage dApp) ∧
    capturedImage dApp ≠ "" :=
  claim_C6 dApp emptyFS (by decide)

/-- Claim C7: a SelectOption/Click step locates its control by the
role-and-name query; it fails with `ElementNotFound` exactly when no control
matches within the timeout window, fails with `AmbiguousMatch` exactly when
two or more controls match, and succeeds exactly when the match is unique. -/
theorem claim_C7 (d : Driver) (r : Role) (p : NamePat) :
    (execStep d (Step.clickRole r p) = some Failure.elementNotFound ↔
      candidates d.page r p = []) ∧
    (execStep d (Step.clickRole r p) = some Failure.ambiguousMatch ↔
      2 ≤ (candidates d.page r p).length) ∧
    (execStep d (Step.clickRole r p) = none ↔ (candidates d.page r p).length = 1) := by
  rcases hc : candidates d.page r p with _ | ⟨c, _ | ⟨c2, t⟩⟩ <;>
    simp [execStep, locate, hc]

/-- Claim C7 witness: on the concrete page the month combobox query resolves
uniquely, so the click step succeeds. -/
theorem claim_C7_witness :
    execStep dApp (Step.clickRole Role.combobox (NamePat.ciRegex "month")) = none :=
  (claim_C7 dApp Role.combobox (NamePat.ciRegex "month")).2.2.mpr (by decide)

/-- Claim C8: an AssertText step fails — and fails with `AssertionFailed` —
exactly when the element's visible text does not equal the expected string,
comparing after whitespace trimming and no other normalization. -/
theorem claim_C8 (d : Driver) (tid expected : String) :
    (execStep d (Step.expectText tid expected) = some Failure.assertionFailed ↔
      ¬ trimStr (d.page.textByTestId tid) = trimStr expected) ∧
    (execStep d (Step.expectText tid expected) = none ↔
      trimStr (d.page.textByTestId tid) = trimStr expected) := by
  by_cases h : trimStr (d.page.textByTestId tid) = trimStr expected <;> simp [execStep, h]

/-- Claim C8 witness: against the page showing "Invalid date" the exact-text
assertion of scenario B fails with `AssertionFailed`. -/
theorem claim_C8_witness :
    execStep dBad (Step.expectText "form-error" "Please enter a valid date.") =
      some Failure.assertionFailed :=
  (claim_C8 dBad "form-error" "Please enter a valid date.").1.mpr (by decide)

/-- Claim C9: a Screenshot step fails with `IOError` exactly when the path is
not writable; when the path is writable, the image is written at the
caller-specified path (overwriting whatever was there) and every parent
directory of the path exists afterwards. -/
theorem claim_C9 (d : Driver) (fs : FS) (p : String) :
    (execStep d (Step.screenshot p) = some Failure.ioError ↔ d.writable p = false) ∧
    (d.writable p = true →
      List.lookup p (applyStep d fs (Step.screenshot p)).files = some (capturedImage d) ∧
      ∀ q ∈ parentDirs p, q ∈ (applyStep d fs (Step.screenshot p)).dirs) := by
  cases hw : d.writable p with
  | false =>
    constructor
    · simp [execStep, hw]
    · intro h; simp [hw] at h
  | true =>
    constructor
    · simp [execStep, hw]
    · intro _
      constructor
      · simp [applyStep, hw, setFile, List.lookup, beq_self_eq_true]
      · intro q hq
        simp only [applyStep, hw, if_true, List.mem_append]
        exact Or.inr hq

/-- Claim C9 witness: over a filesystem already holding an old file at the
screenshot path, the step overwrites it with the new captured image. -/
theorem claim_C9_witness :
    List.lookup ageShotPath (applyStep dApp fsPre (Step.screenshot ageShotPath)).files =
      some (capturedImage dApp) ∧
    capturedImage dApp ≠ "old" :=
  ⟨((claim_C9 dApp fsPre ageShotPath).2 (by decide)).1, by decide⟩

/-- Claim C10: both scripts hard-code the same screenshot path and the same
target URL; running one scenario after the other (in either order) leaves
exactly one file — at that shared path, holding the second run's image — so
after running both scripts at most one verification image exists. -/
theorem claim_C10 :
    ageShotPath = pageLoadShotPath ∧ ageUrl = pageLoadUrl ∧
    (run dApp2 (run dApp emptyFS ageVerificationSteps).fs pageLoadSteps).fs.files =
      [(pageLoadShotPath, capturedImage dApp2)] ∧
    (run dApp (run dApp2 emptyFS pageLoadSteps).fs ageVerificationSteps).fs.files =
      [(ageShotPath, capturedImage dApp)] ∧
    capturedImage dApp ≠ capturedImage dApp2 := by
  decide

end PlayNite
